import Mathlib

/-!
Shallow embedding of the sell-out consolidation core of the repository
(`funciones_clientes_grandes.py`, `funciones_auxiliares/funciones_principales.py`,
`main.py`).  Tables are lists of records, pandas column operations become list
operations, and Python exceptions become `Except`/`Option` values.  Python
string primitives (`strip`, `split`, `upper`, `in`, `replace`, `int(...)`) are
re-implemented over `List Char` so that every definition evaluates inside the
kernel; `pandas.groupby(...).agg(sum)` is embedded as a fold that accumulates
one entry per key.
-/

/-- Decidable equality for `Except`, needed to evaluate embedded runs on
concrete inputs. -/
instance {ε α : Type} [DecidableEq ε] [DecidableEq α] : DecidableEq (Except ε α) := fun a b =>
  match a, b with
  | .ok x, .ok y =>
    if h : x = y then .isTrue (by rw [h]) else .isFalse (by intro hc; cases hc; exact h rfl)
  | .error x, .error y =>
    if h : x = y then .isTrue (by rw [h]) else .isFalse (by intro hc; cases hc; exact h rfl)
  | .ok _, .error _ => .isFalse (by intro hc; cases hc)
  | .error _, .ok _ => .isFalse (by intro hc; cases hc)

/-! ## Python string primitives over `List Char` -/

/-- Whitespace recognised by Python `str.strip`. -/
def esEspacio (c : Char) : Bool := c = ' ' || c = '\t' || c = '\n' || c = '\r'

/-- Python `s.strip()`. -/
def miTrim (s : String) : String :=
  ⟨((s.data.dropWhile esEspacio).reverse.dropWhile esEspacio).reverse⟩

/-- Python `s.upper()`. -/
def miToUpper (s : String) : String := ⟨s.data.map Char.toUpper⟩

/-- Python `s.lower()`. -/
def miToLower (s : String) : String := ⟨s.data.map Char.toLower⟩

/-- Tests whether `pat` is a prefix of `l`. -/
def listaEsPrefijo : List Char → List Char → Bool
  | [], _ => true
  | p :: ps, l =>
    match l with
    | [] => false
    | c :: cs => p = c && listaEsPrefijo ps cs

/-- Python `pat in s` (substring containment). -/
def listaContieneSub (pat : List Char) : List Char → Bool
  | [] => decide (pat = [])
  | c :: rest => listaEsPrefijo pat (c :: rest) || listaContieneSub pat rest

/-- Python `pat in s` on strings. -/
def contieneSub (pat s : String) : Bool := listaContieneSub pat.data s.data

/-- Python `c in s` for a single character. -/
def contieneChar (c : Char) (s : String) : Bool := s.data.contains c

/-- Worker for `pySplit`: splits `l` at every occurrence of the separator
`p :: ps`, accumulating the current segment in `cur` (reversed).  The fuel is
always at least `l.length + 1`, so it never runs out; it only makes the
recursion structural so that the kernel can evaluate it. -/
def separarAux (p : Char) (ps : List Char) : Nat → List Char → List Char → List (List Char)
  | 0, l, cur => [cur.reverse ++ l]
  | fuel + 1, l, cur =>
    match l with
    | [] => [cur.reverse]
    | c :: rest =>
      if listaEsPrefijo (p :: ps) (c :: rest) then
        cur.reverse :: separarAux p ps fuel (rest.drop ps.length) []
      else separarAux p ps fuel rest (c :: cur)

/-- Python `s.split(sep)` (with `sep` nonempty; `split` with no argument is not
used by the embedded code). -/
def pySplit (sep s : String) : List String :=
  match sep.data with
  | [] => [s]
  | p :: ps => (separarAux p ps (s.data.length + 1) s.data []).map (fun l => ⟨l⟩)

/-- Python `sep.join(parts)`. -/
def pyJoin (sep : String) (parts : List String) : String :=
  ⟨(List.intersperse sep.data (parts.map String.data)).flatten⟩

/-- Python `s.split(sep, 1)`: split only at the first occurrence. -/
def pySplit1 (sep s : String) : List String :=
  match pySplit sep s with
  | [] => [s]
  | [x] => [x]
  | x :: rest => [x, pyJoin sep rest]

/-- Python `s.rsplit(sep, 1)`: split only at the last occurrence. -/
def pyRSplit1 (sep s : String) : List String :=
  match pySplit sep s with
  | [] => [s]
  | [x] => [x]
  | xs => [pyJoin sep xs.dropLast, xs.getLastD ""]

/-- Python `s.replace(old, new)`. -/
def pyReplace (s old new : String) : String := pyJoin new (pySplit old s)

/-- Python `int(s)` restricted to the nonnegative decimal literals the embedded
code feeds it; any other string raises, modelled as `none`. -/
def miToNat (s : String) : Option Nat :=
  if s.data ≠ [] ∧ s.data.all (fun c => decide ('0' ≤ c) && decide (c ≤ '9')) then
    some (s.data.foldl (fun n c => n * 10 + (c.toNat - '0'.toNat)) 0)
  else none

/-- Python dictionary lookup `d[k]` over an association list, `none` for a
`KeyError`. -/
def buscarTabla {α β : Type} [DecidableEq α] (k : α) : List (α × β) → Option β
  | [] => none
  | (a, b) :: rest => if a = k then some b else buscarTabla k rest

/-! ## Period arithmetic (`funciones_clientes_grandes.py` lines 4-34) -/

/-- Diccionario de conversión de meses (`meses_mapping`). -/
def meses_mapping : List (String × String) :=
  [("ENE", "1"), ("FEB", "2"), ("MAR", "3"), ("ABR", "4"),
   ("MAY", "5"), ("JUN", "6"), ("JUL", "7"), ("AGO", "8"),
   ("SEP", "9"), ("OCT", "10"), ("NOV", "11"), ("DIC", "12")]

/-- Source `obtener_numero_mes`: `int(meses_mapping[nombre_mes])`.  A `KeyError`
on an unrecognised code is modelled as `none`. -/
def obtener_numero_mes (nombre_mes : String) : Option Nat :=
  (buscarTabla nombre_mes meses_mapping).bind miToNat

/-- Inverse table `numero_a_mes` from `obtener_siguiente_mes`. -/
def numero_a_mes : List (Nat × String) :=
  [(1, "ENE"), (2, "FEB"), (3, "MAR"), (4, "ABR"),
   (5, "MAY"), (6, "JUN"), (7, "JUL"), (8, "AGO"),
   (9, "SEP"), (10, "OCT"), (11, "NOV"), (12, "DIC")]

/-- Source `obtener_siguiente_mes`: successor month with December→January year
rollover; a `KeyError` on an unrecognised code is modelled as `none`. -/
def obtener_siguiente_mes (mes_actual : String) (anio_actual : Int) : Option (String × Int) :=
  match obtener_numero_mes mes_actual with
  | none => none
  | some num_mes_actual =>
    let siguiente_mes_num := if num_mes_actual = 12 then 1 else num_mes_actual + 1
    let siguiente_anio := if num_mes_actual = 12 then anio_actual + 1 else anio_actual
    (buscarTabla siguiente_mes_num numero_a_mes).map (fun siguiente_mes => (siguiente_mes, siguiente_anio))

/-- Month order used by `verificar_mes_correcto` and
`validar_formato_nombre_archivo` (`meses_orden` / `meses_validos`). -/
def meses_orden : List String :=
  ["ENE", "FEB", "MAR", "ABR", "MAY", "JUN", "JUL", "AGO", "SEP", "OCT", "NOV", "DIC"]

/-- Full month names used by the MAKRO reshaper (`meses_makro`). -/
def meses_makro : List (String × String) :=
  [("ENE", "Enero"), ("FEB", "Febrero"), ("MAR", "Marzo"), ("ABR", "Abril"),
   ("MAY", "Mayo"), ("JUN", "Junio"), ("JUL", "Julio"), ("AGO", "Agosto"),
   ("SEP", "Septiembre"), ("OCT", "Octubre"), ("NOV", "Noviembre"), ("DIC", "Diciembre")]

/-- Source `obtener_mes_completo`: `meses_makro[nombre_mes]`, `KeyError` as `none`. -/
def obtener_mes_completo (nombre_mes : String) : Option String :=
  buscarTabla nombre_mes meses_makro

/-- English month names produced by `strftime("%B")` in the PROMOTORA reshaper. -/
def nombre_mes_ingles : List (Nat × String) :=
  [(1, "January"), (2, "February"), (3, "March"), (4, "April"),
   (5, "May"), (6, "June"), (7, "July"), (8, "August"),
   (9, "September"), (10, "October"), (11, "November"), (12, "December")]

/-! ## Data model -/

/-- A row of the aggregate consolidated table (`tabla_sell_out_consolidado`):
one `ClientPeriodSummary` per (client, month, year), with the unit total.
The Python column `año` is transliterated as `anio`. -/
structure SellOutRow where
  cliente : String
  mes : String
  anio : Int
  unidades : Int
deriving Repr, DecidableEq

/-- The dictionary returned by `obtener_ultimo_mes_cliente` on success
(the derived `fecha_completa` display string is not carried). -/
structure UltimoInfo where
  cliente : String
  ultimo_mes : String
  ultimo_anio : Int
  unidades : Int
  total_registros : Nat
  siguiente_mes : String × Int
deriving Repr, DecidableEq

/-- Chronological comparison of `(year, month_number)` keys, mirroring the
`fecha_ordenamiento` datetime ordering: `lexLe a b` means `a ≤ b`. -/
def lexLe (a b : Int × Nat) : Bool :=
  decide (a.1 < b.1) || (decide (a.1 = b.1) && decide (a.2 ≤ b.2))

/-- Source `obtener_ultimo_mes_cliente`: filter the history to the client, sort
chronologically by `(year, month_number)` and take the last row (the fold keeps
the later row on ties, matching a stable sort followed by `iloc[-1]`), then
attach the successor period.  The error dictionaries of the Python code are
modelled as `Except.error` with the corresponding message. -/
def obtener_ultimo_mes_cliente (consolidado_sell_out : List SellOutRow) (nombre_cliente : String) :
    Except String UltimoInfo :=
  let df_cliente := consolidado_sell_out.filter (fun r => decide (r.cliente = nombre_cliente))
  if df_cliente.isEmpty then
    .error ("No se encontraron registros para el cliente: " ++ nombre_cliente)
  else if df_cliente.all (fun r => (obtener_numero_mes r.mes).isSome) then
    let claves := df_cliente.filterMap
      (fun r => (obtener_numero_mes r.mes).map (fun n => (r, (r.anio, n))))
    match claves with
    | [] => .error "Error al procesar el archivo"
    | k :: ks =>
      let ultimo := ks.foldl (fun best cur => if lexLe best.2 cur.2 then cur else best) k
      match obtener_siguiente_mes ultimo.1.mes ultimo.1.anio with
      | none => .error "Error al procesar el archivo"
      | some sig =>
        .ok { cliente := ultimo.1.cliente
              ultimo_mes := ultimo.1.mes
              ultimo_anio := ultimo.1.anio
              unidades := ultimo.1.unidades
              total_registros := df_cliente.length
              siguiente_mes := sig }
  else .error "Error al procesar el archivo"

/-! ## Store/city resolvers (`funciones_clientes_grandes.py` lines 70-88, 162-183) -/

/-- Source `separar_tienda_ciudad`: fixed overrides first, then a hyphen split
taking the first two parts, else the trimmed label with the unknown-city
sentinel. -/
def separar_tienda_ciudad (nombre0 : String) : String × String :=
  let nombre := miTrim nombre0
  if nombre = "CARULLA PRADERA DE POTOSI" then ("CARULLA PRADERA DE POTOSI", "POTOSI")
  else if nombre = "CARULLA MANIZALES" then ("CARULLA MANIZALES", "MANIZALES")
  else if nombre = "CARULLA PLAZA CLARO" then ("CARULLA PLAZA CLARO", "BOGOTA")
  else if contieneChar '-' nombre then
    match (pySplit "-" nombre).map miTrim with
    | tienda :: ciudad :: _ => (tienda, ciudad)
    | _ => (nombre, "CIUDAD DESCONOCIDA")
  else (nombre, "CIUDAD DESCONOCIDA")

/-- Source `separar_tienda_ciudad_makro`: strip an optional leading code
segment before the first hyphen, upper-case, apply MAKRO-specific overrides,
then split on the last `" - "`; the fallback is the single-store sentinel. -/
def separar_tienda_ciudad_makro (valor : Option String) : String × String :=
  match valor with
  | none => ("", "")
  | some v =>
    let partes := pySplit1 "-" v
    let nombre0 := if partes.length = 2 then miTrim (partes.getD 1 "") else miTrim v
    let nombre := miToUpper nombre0
    if nombre = "MAKRO CALLE 30" then ("MAKRO CALLE 30", "SOLEDAD")
    else if nombre = "ESTACION POBLADO" then ("ESTACION POBLADO", "MEDELLIN")
    else if nombre = "CALI - NORTE" then ("NORTE", "CALI")
    else if contieneSub " - " nombre then
      match pyRSplit1 " - " nombre with
      | [tienda, ciudad] => (miTrim tienda, miTrim ciudad)
      | _ => ("Tienda Única", miTrim nombre)
    else ("Tienda Única", miTrim nombre)

/-! ## Group-by with summed units

`pandas.groupby(keys).agg({"Unidades": "sum"})` is embedded as a fold that
keeps one accumulator entry per key and adds each row's units into its entry. -/

/-- Inserts one keyed row into the accumulator: add to the existing entry for
the key, or append a fresh entry. -/
def agregar_fila {K : Type} [DecidableEq K] (acc : List (K × Int)) (r : K × Int) : List (K × Int) :=
  if acc.any (fun p => decide (p.1 = r.1)) then
    acc.map (fun p => if p.1 = r.1 then (p.1, p.2 + r.2) else p)
  else acc ++ [r]

/-- Group a keyed table and sum the units within each key. -/
def groupby_sum {K : Type} [DecidableEq K] (rows : List (K × Int)) : List (K × Int) :=
  rows.foldl agregar_fila []

/-- Sum of the units column of a keyed table. -/
def sumSnd {K : Type} (l : List (K × Int)) : Int := (l.map Prod.snd).sum

/-- Sum of the units of all rows of a keyed table that carry the key `k`. -/
def valorEnClave {K : Type} [DecidableEq K] (k : K) (l : List (K × Int)) : Int :=
  sumSnd (l.filter (fun p => decide (p.1 = k)))

/-! ## Canonical detail rows and client reshapers -/

/-- A `CanonicalSaleRecord` detail row as emitted by every reshaper (columns
EAN, cliente, Mes, año, Tienda, Ciudad, Descripcion, Unidades, NumMes). -/
structure VentaRow where
  ean : String
  cliente : String
  mes : String
  anio : Int
  tienda : String
  ciudad : String
  descripcion : String
  unidades : Int
  numMes : Nat
deriving Repr, DecidableEq

/-- The single-row `consolidado_sell_out` summary dictionary built by each
reshaper (keys Mes, año, cliente, Unidades, NumMes). -/
structure ConsolidadoSellOut where
  mes : String
  anio : Int
  cliente : String
  unidades : Int
  numMes : Nat
deriving Repr, DecidableEq

/-- The aggregation key `(EAN, Mes, año, Tienda, Ciudad, Descripcion)` shared
by the three reshapers (the constant `cliente` column that MAKRO and FARMATODO
additionally group by never distinguishes rows within one call). -/
abbrev ClaveVenta := String × String × Int × String × String × String

/-- Turns one grouped `(key, units)` entry into a canonical detail row. -/
def aFilaVenta (cliente : String) (numMes : Nat) (p : ClaveVenta × Int) : VentaRow :=
  match p with
  | ((ean, mes, anio, tienda, ciudad, descripcion), unidades) =>
    { ean := ean, cliente := cliente, mes := mes, anio := anio, tienda := tienda,
      ciudad := ciudad, descripcion := descripcion, unidades := unidades, numMes := numMes }

/-- Result of a per-client reshaper call, covering all the ways the Python
functions can come back to the caller: the `(None, None)` pair, a normal
`(summary, detail)` pair, the bare `{"error": ...}` dictionary (not a pair),
or an uncaught exception. -/
inductive ResultadoProceso where
  | sinDatos
  | errorDict (msg : String)
  | excepcion (msg : String)
  | ok (resumen : ConsolidadoSellOut) (detalle : List VentaRow)
deriving Repr, DecidableEq

/-- A raw PROMOTORA row: the parsed `Fecha` as (year, month-number), the
store label `Nomb. Dependencia` (possibly missing), and the remaining columns
used by the reshaper. -/
structure FilaPromotora where
  ean : String
  fecha : Int × Nat
  nombDependencia : Option String
  descripcion : String
  unidades : Int
deriving Repr, DecidableEq

/-- The raw PROMOTORA sheet: its rows plus whether a `Unidades` column is
present at all (checked before any row is touched). -/
structure TablaPromotora where
  tiene_col_unidades : Bool
  filas : List FilaPromotora
deriving Repr, DecidableEq

/-- A raw MAKRO row after the two header rows: the four id columns (each
possibly blank) and the wide `(month, Cde.)` value columns. -/
structure FilaMakro where
  tienda : Option String
  numero_articulo : Option String
  descripcion : Option String
  codigo_barras : Option String
  cde : List (String × Option Int)
deriving Repr, DecidableEq

/-- The raw MAKRO sheet: which full-month `Cde.` columns exist, and the rows. -/
structure TablaMakro where
  columnas_cde : List String
  filas : List FilaMakro
deriving Repr, DecidableEq

/-- A raw FARMATODO row (columns UPC, DESCRIPCION_ITEM, NOMBRE_TIENDA, CIUDAD,
UNIDADES_VENDIDAS), straight from `read_excel` with no cleaning: a missing
(NaN) cell in one of the four key columns is `none`. -/
structure FilaFarmatodo where
  upc : Option String
  descripcion_item : Option String
  nombre_tienda : Option String
  ciudad : Option String
  unidades_vendidas : Int
deriving Repr, DecidableEq

/-- The `datos` dictionary as far as the consolidation step reads it. -/
structure Datos where
  tabla_sell_out_consolidado : List SellOutRow
  tabla_sell_out_ciudades_consolidado : Option (List VentaRow)
  tabla_cliente_promotora : Option TablaPromotora
  tabla_cliente_makro : Option TablaMakro
  tabla_cliente_farmatodo : Option (List FilaFarmatodo)
deriving Repr, DecidableEq

/-- Month name derived by `strftime("%B").lower()` from a parsed date. -/
def mesInglesDeFecha (fecha : Int × Nat) : String :=
  miToLower ((buscarTabla fecha.2 nombre_mes_ingles).getD "")

/-- Filter `Nomb. Dependencia.notna() & (strip != '')` of the PROMOTORA reshaper. -/
def filtroDependencia (f : FilaPromotora) : Bool :=
  match f.nombDependencia with
  | none => false
  | some s => decide (miTrim s ≠ "")

/-- Aggregation key of one preprocessed PROMOTORA row: month and year from the
date column, store and city from `separar_tienda_ciudad`. -/
def clavePromotora (f : FilaPromotora) : ClaveVenta :=
  let tc := separar_tienda_ciudad (f.nombDependencia.getD "")
  (f.ean, mesInglesDeFecha f.fecha, f.fecha.1, tc.1, tc.2, f.descripcion)

/-- Source `procesar_promotora`.  The `(None, None)` early return, the
`{"error": ...}` return when the `Unidades` column is missing (line 106), and
the `KeyError` raised at line 123 when the history lookup produced an error
dictionary are all represented in `ResultadoProceso`. -/
def procesar_promotora (datos : Datos) : ResultadoProceso :=
  match datos.tabla_cliente_promotora with
  | none => .sinDatos
  | some tabla =>
    let informacion_consolidado :=
      obtener_ultimo_mes_cliente datos.tabla_sell_out_consolidado "PROMOTORA DE COMERCIO SOCIAL"
    if !tabla.tiene_col_unidades then
      .errorDict "No se encontro la columna Unidades en el archivo de promotora"
    else
      match informacion_consolidado with
      | .error e => .excepcion ("KeyError: " ++ e)
      | .ok info =>
        match obtener_numero_mes info.siguiente_mes.1 with
        | none => .excepcion "KeyError"
        | some num_mes =>
          let filtradas := tabla.filas.filter filtroDependencia
          let agrupado := groupby_sum (filtradas.map (fun f => (clavePromotora f, f.unidades)))
          let total_unidades := sumSnd agrupado
          .ok { mes := info.siguiente_mes.1, anio := info.siguiente_mes.2,
                cliente := "PROMOTORA DE COMERCIO SOCIAL",
                unidades := total_unidades, numMes := num_mes }
            (agrupado.map (aFilaVenta "PROMOTORA DE COMERCIO SOCIAL" num_mes))

/-- Blank test applied to each MAKRO id column (`notna`, `!= ''`, `!= ' '`). -/
def noVacio (o : Option String) : Bool :=
  match o with
  | none => false
  | some s => decide (s ≠ "") && decide (s ≠ " ")

/-- Source `procesar_makro`.  The wide sheet is melted on the single
`(full month name, Cde.)` column of the expected month (an absent column gives
an empty long table), `NaN` and zero unit values are dropped, and the long
table is grouped on the canonical key.  When the long table is empty, the
two-column store/city assignment `MAKRO_consolidado_long[['Tienda', 'Ciudad']]`
at line 245 assigns from an empty `Series` and raises an uncaught
`ValueError: Columns must be same length as key` (pandas 1.3 and later),
modelled as `excepcion`.  The summary total is the unit sum of the long table
before grouping. -/
def procesar_makro (datos : Datos) : ResultadoProceso :=
  match datos.tabla_cliente_makro with
  | none => .sinDatos
  | some tabla =>
    match obtener_ultimo_mes_cliente datos.tabla_sell_out_consolidado "MAKRO SUPERMAYORISTA SAS" with
    | .error e => .excepcion ("KeyError: " ++ e)
    | .ok info =>
      match obtener_mes_completo info.siguiente_mes.1 with
      | none => .excepcion "KeyError"
      | some mes_procesar =>
        match obtener_numero_mes info.siguiente_mes.1 with
        | none => .excepcion "KeyError"
        | some num_mes =>
          let df_completo := tabla.filas.filter (fun f =>
            noVacio f.tienda && noVacio f.numero_articulo &&
            noVacio f.descripcion && noVacio f.codigo_barras)
          let long : List (FilaMakro × Int) :=
            if decide (mes_procesar ∈ tabla.columnas_cde) then
              df_completo.filterMap (fun f =>
                match (buscarTabla mes_procesar f.cde).join with
                | none => none
                | some v => if v = 0 then none else some (f, v))
            else []
          match long with
          | [] => .excepcion "ValueError: Columns must be same length as key"
          | _ :: _ =>
            let mes_valor := miToLower (pyReplace mes_procesar "Cde." "")
            let filas_clave : List (ClaveVenta × Int) := long.map (fun fv =>
              let tc := separar_tienda_ciudad_makro fv.1.tienda
              ((fv.1.codigo_barras.getD "", mes_valor, info.siguiente_mes.2,
                tc.1, tc.2, fv.1.descripcion.getD ""), fv.2))
            let agrupado := groupby_sum filas_clave
            let total_unidades := (long.map Prod.snd).sum
            .ok { mes := info.siguiente_mes.1, anio := info.siguiente_mes.2,
                  cliente := "MAKRO SUPERMAYORISTA SAS",
                  unidades := total_unidades, numMes := num_mes }
              (agrupado.map (aFilaVenta "MAKRO SUPERMAYORISTA SAS" num_mes))

/-- Per-row key construction of the FARMATODO group-by: a row with a missing
(NaN) cell in any of the four key columns gets no key, and pandas `groupby`
drops it from the grouped result. -/
def clave_farmatodo (mes : String) (anio : Int) (f : FilaFarmatodo) :
    Option (ClaveVenta × Int) :=
  match f.upc, f.nombre_tienda, f.ciudad, f.descripcion_item with
  | some upc, some tienda, some ciudad, some descripcion =>
    some ((upc, mes, anio, tienda, ciudad, descripcion), f.unidades_vendidas)
  | _, _, _, _ => none

/-- The FARMATODO rows that reach the grouped result: exactly those whose key
cells are all present. -/
def filas_validas_farmatodo (mes : String) (anio : Int) (archivo : List FilaFarmatodo) :
    List (ClaveVenta × Int) :=
  archivo.filterMap (clave_farmatodo mes anio)

/-- Source `procesar_farmatodo`: rename the columns, stamp the expected period
onto every row, group on the canonical key — `groupby` drops every row whose
key contains a missing (NaN) cell.  The summary total is the unit sum of the
raw input column `UNIDADES_VENDIDAS` (line 314), taken before the group-by and
therefore including the units of the rows the group-by drops. -/
def procesar_farmatodo (datos : Datos) : ResultadoProceso :=
  match datos.tabla_cliente_farmatodo with
  | none => .sinDatos
  | some archivo_farmatodo =>
    match obtener_ultimo_mes_cliente datos.tabla_sell_out_consolidado "FARMATODO COLOMBIA SA" with
    | .error e => .excepcion ("KeyError: " ++ e)
    | .ok info =>
      match obtener_numero_mes info.siguiente_mes.1 with
      | none => .excepcion "KeyError"
      | some num_mes =>
        let filas_clave :=
          filas_validas_farmatodo info.siguiente_mes.1 info.siguiente_mes.2 archivo_farmatodo
        let agrupado := groupby_sum filas_clave
        let total_unidades := (archivo_farmatodo.map (fun f => f.unidades_vendidas)).sum
        .ok { mes := info.siguiente_mes.1, anio := info.siguiente_mes.2,
              cliente := "FARMATODO COLOMBIA SA",
              unidades := total_unidades, numMes := num_mes }
          (agrupado.map (aFilaVenta "FARMATODO COLOMBIA SA" num_mes))

/-! ## Consolidation run (`main.py` lines 97-168) -/

/-- The caller-side unpacking `a, b = procesar_x(datos)`.  A normal pair
unpacks; the bare one-key error dictionary raises
`ValueError: not enough values to unpack`; an exception inside the reshaper
propagates. -/
def desempaquetar (r : ResultadoProceso) :
    Except String (Option ConsolidadoSellOut × Option (List VentaRow)) :=
  match r with
  | .sinDatos => .ok (none, none)
  | .ok resumen detalle => .ok (some resumen, some detalle)
  | .errorDict _ => .error "ValueError: not enough values to unpack (expected 2, got 1)"
  | .excepcion m => .error m

/-- Converts a reshaper summary dictionary into a row of the aggregate table
(the appended single-row DataFrame). -/
def filaResumen (c : ConsolidadoSellOut) : SellOutRow :=
  { cliente := c.cliente, mes := c.mes, anio := c.anio, unidades := c.unidades }

/-- Source `actualizar_consolidado_y_guardar_excel`: run the three reshapers,
append each summary that is not `None` onto the aggregate consolidated table.
An uncaught exception in any reshaper (or in the unpacking of its result)
aborts the whole run, modelled as `Except.error`. -/
def actualizar_consolidado_y_guardar_excel (datos : Datos) : Except String (List SellOutRow) := do
  let (consolidado_promotora, _) ← desempaquetar (procesar_promotora datos)
  let (consolidado_makro, _) ← desempaquetar (procesar_makro datos)
  let (consolidado_farmatodo, _) ← desempaquetar (procesar_farmatodo datos)
  let nuevos := ([consolidado_promotora, consolidado_makro, consolidado_farmatodo].filterMap id).map filaResumen
  return datos.tabla_sell_out_consolidado ++ nuevos

/-- Source `actualizar_consolidado_sell_out_ciudades_y_guardar_excel`: run the
three reshapers, concatenate the base city-level table (if present) with each
detail table that is not `None`; with nothing to concatenate it returns `None`. -/
def actualizar_consolidado_sell_out_ciudades_y_guardar_excel (datos : Datos) :
    Except String (Option (List VentaRow)) := do
  let (_, df_promotora) ← desempaquetar (procesar_promotora datos)
  let (_, df_makro) ← desempaquetar (procesar_makro datos)
  let (_, df_farmatodo) ← desempaquetar (procesar_farmatodo datos)
  let bases := (match datos.tabla_sell_out_ciudades_consolidado with
    | some b => [b]
    | none => []) ++ ([df_promotora, df_makro, df_farmatodo].filterMap id)
  if bases.isEmpty then return none
  else return some bases.flatten

/-! ## Input-file validation (`funciones_auxiliares/funciones_principales.py` lines 47-173) -/

/-- Source `validar_formato_nombre_archivo`: checks the `MES_CLIENTE.xlsx`
naming convention and returns `(ok, parsed month, error message)`. -/
def validar_formato_nombre_archivo (nombre_archivo : Option String) (tipo_cliente : String) :
    Bool × Option String × Option String :=
  match nombre_archivo with
  | none => (false, none, some ("No se especifico archivo para " ++ tipo_cliente))
  | some nombre =>
    if nombre = "" then (false, none, some ("No se especifico archivo para " ++ tipo_cliente))
    else
      let nombre_sin_extension := pyReplace nombre ".xlsx" ""
      if !contieneChar '_' nombre_sin_extension then
        (false, none, some ("El archivo " ++ nombre ++ " debe tener formato MES_" ++
          tipo_cliente ++ ".xlsx"))
      else
        let partes := pySplit "_" nombre_sin_extension
        if partes.length < 2 then
          (false, none, some ("El archivo " ++ nombre ++ " debe tener formato MES_" ++
            tipo_cliente ++ ".xlsx"))
        else
          let mes_archivo := miToUpper (partes.headD "")
          let cliente_archivo := miToUpper (pyJoin "_" partes.tail)
          if !(decide (mes_archivo ∈ meses_orden)) then
            (false, none, some ("Mes " ++ mes_archivo ++ " no valido en " ++ nombre))
          else if cliente_archivo ≠ miToUpper tipo_cliente then
            (false, none, some ("Cliente debe ser " ++ tipo_cliente ++ ", encontrado " ++
              cliente_archivo ++ " en " ++ nombre))
          else (true, some mes_archivo, none)

/-- Python `list.index` returning `none` instead of raising `ValueError` when
the element is absent. -/
def buscarIndice (m : String) : List String → Option Nat
  | [] => none
  | x :: rest => if x = m then some 0 else (buscarIndice m rest).map (fun i => i + 1)

/-- Source `verificar_mes_correcto`: compares the month parsed from the file
name with the expected month and builds the diagnostic message. -/
def verificar_mes_correcto (mes_archivo mes_esperado nombre_archivo : String) : Bool × String :=
  if mes_archivo = mes_esperado then
    (true, "✅ " ++ nombre_archivo ++ ": Mes correcto (" ++ mes_esperado ++ ")")
  else
    match buscarIndice mes_archivo meses_orden, buscarIndice mes_esperado meses_orden with
    | some pos_archivo, some pos_esperado =>
      if pos_archivo < pos_esperado ∨ (pos_esperado = 0 ∧ pos_archivo > 6) then
        (false, "⚠️ " ++ nombre_archivo ++ ": Mes " ++ mes_archivo ++
          " ya procesado (se esperaba " ++ mes_esperado ++ ")")
      else
        (false, "⚠️ " ++ nombre_archivo ++ ": Mes " ++ mes_archivo ++
          " no corresponde (se esperaba " ++ mes_esperado ++ ")")
    | _, _ => (false, "❌ Error comparando meses en " ++ nombre_archivo)

/-- The result dictionary of `validar_cliente_individual`. -/
structure ResultadoValidacion where
  cliente : String
  procesable : Bool
  mensaje : String
  archivo : Option String
  mes : Option String
deriving Repr, DecidableEq

/-- Source `validar_cliente_individual`.  File-system access is a collaborator:
the configured file name and whether the file exists are passed in as values.
The history consolidated table drives the expected-month computation. -/
def validar_cliente_individual (nombre_archivo : Option String) (archivo_existe : Bool)
    (hist : List SellOutRow) (tipo_cliente : String) (empresa_nombre : String) :
    ResultadoValidacion :=
  let base : ResultadoValidacion :=
    { cliente := tipo_cliente, procesable := false, mensaje := "", archivo := none, mes := none }
  if nombre_archivo = none ∨ nombre_archivo = some "" then
    { base with mensaje := "⚠️ " ++ tipo_cliente ++ ": No especificado en configuracion" }
  else
    let nombre := (nombre_archivo.getD "")
    let conArchivo := { base with archivo := some nombre }
    if !archivo_existe then
      { conArchivo with mensaje := "⚠️ " ++ tipo_cliente ++ ": Archivo no encontrado (" ++ nombre ++ ")" }
    else
      match validar_formato_nombre_archivo (some nombre) tipo_cliente with
      | (false, _, error_formato) =>
        { conArchivo with mensaje := " " ++ tipo_cliente ++ ": " ++ error_formato.getD "" }
      | (true, mes_archivo_opt, _) =>
        let mes_archivo := mes_archivo_opt.getD ""
        let conMes := { conArchivo with mes := some mes_archivo }
        match obtener_ultimo_mes_cliente hist empresa_nombre with
        | .error e =>
          { conMes with mensaje := " " ++ tipo_cliente ++ ": Error en consolidado - " ++ e }
        | .ok info =>
          let mes_esperado := info.siguiente_mes.1
          match verificar_mes_correcto mes_archivo mes_esperado nombre with
          | (true, _) =>
            { conMes with
              procesable := true
              mensaje := "✅ " ++ tipo_cliente ++ ": Listo para procesar (mes: " ++ mes_archivo ++ ")" }
          | (false, mensaje_mes) =>
            { conMes with mensaje := tipo_cliente ++ ": " ++ mensaje_mes }

/-! ## Lemmas about the group-by fold -/

/-- Updating the entry of one key never changes the key column. -/
theorem map_update_fst {K : Type} [DecidableEq K] (acc : List (K × Int)) (r : K × Int) :
    (acc.map (fun p => if p.1 = r.1 then (p.1, p.2 + r.2) else p)).map Prod.fst =
      acc.map Prod.fst := by
  rw [List.map_map]
  refine List.map_congr_left (fun p _ => ?_)
  by_cases h : p.1 = r.1 <;> simp [h]

/-- Updating a key that no row of the list carries is the identity. -/
theorem map_update_id {K : Type} [DecidableEq K] (t : List (K × Int)) (r : K × Int)
    (h : ∀ q ∈ t, ¬ q.1 = r.1) :
    t.map (fun p => if p.1 = r.1 then (p.1, p.2 + r.2) else p) = t := by
  have := List.map_congr_left (l := t)
    (f := fun p => if p.1 = r.1 then (p.1, p.2 + r.2) else p) (g := id)
    (fun q hq => by simp [h q hq])
  simpa using this

/-- Inserting a row preserves key distinctness of the accumulator. -/
theorem agregar_fila_nodup {K : Type} [DecidableEq K] (acc : List (K × Int)) (r : K × Int)
    (h : (acc.map Prod.fst).Nodup) : ((agregar_fila acc r).map Prod.fst).Nodup := by
  unfold agregar_fila
  split
  · rw [map_update_fst]; exact h
  · next hneg =>
    rw [List.map_append]
    rw [List.nodup_append]
    refine ⟨h, List.nodup_singleton _, ?_⟩
    intro a ha
    simp only [List.map_cons, List.map_nil, List.mem_singleton]
    intro hEq
    rw [List.mem_map] at ha
    obtain ⟨p, hp, hpa⟩ := ha
    rw [List.any_eq_true] at hneg
    exact hneg ⟨p, hp, by simp [hpa, hEq]⟩

/-- Updating the unique entry of a present key adds the row's units to the
total unit sum. -/
theorem sum_map_update {K : Type} [DecidableEq K] (r : K × Int) :
    ∀ acc : List (K × Int), (acc.map Prod.fst).Nodup →
      acc.any (fun p => decide (p.1 = r.1)) = true →
      sumSnd (acc.map (fun p => if p.1 = r.1 then (p.1, p.2 + r.2) else p)) =
        sumSnd acc + r.2 := by
  intro acc
  induction acc with
  | nil => intro _ hany; simp at hany
  | cons p t ih =>
    intro hnd hany
    rw [List.map_cons, List.nodup_cons] at hnd
    by_cases hp : p.1 = r.1
    · have ht : ∀ q ∈ t, ¬ q.1 = r.1 := by
        intro q hq hq1
        exact hnd.1 (by rw [hp, ← hq1]; exact List.mem_map_of_mem Prod.fst hq)
      rw [List.map_cons, if_pos hp, map_update_id t r ht]
      simp only [sumSnd, List.map_cons, List.sum_cons]
      ring
    · have hany' : t.any (fun q => decide (q.1 = r.1)) = true := by
        rcases List.any_eq_true.mp hany with ⟨q, hq, hqr⟩
        rcases List.mem_cons.mp hq with hq | hq
        · exact absurd (of_decide_eq_true (hq ▸ hqr)) hp
        · exact List.any_eq_true.mpr ⟨q, hq, hqr⟩
      rw [List.map_cons, if_neg hp]
      simp only [sumSnd, List.map_cons, List.sum_cons] at *
      rw [ih hnd.2 hany']
      ring

/-- Inserting a row adds its units to the total unit sum. -/
theorem agregar_fila_sumSnd {K : Type} [DecidableEq K] (acc : List (K × Int)) (r : K × Int)
    (h : (acc.map Prod.fst).Nodup) : sumSnd (agregar_fila acc r) = sumSnd acc + r.2 := by
  unfold agregar_fila
  split
  · next hany => exact sum_map_update r acc h hany
  · simp [sumSnd]

/-- One step of `valorEnClave` over a cons cell. -/
theorem valorEnClave_cons {K : Type} [DecidableEq K] (k : K) (x : K × Int) (l : List (K × Int)) :
    valorEnClave k (x :: l) = (if x.1 = k then x.2 else 0) + valorEnClave k l := by
  simp only [valorEnClave, sumSnd, List.filter_cons]
  by_cases h : x.1 = k <;> simp [h]

/-- Updating the unique entry of a present key adds the row's units to the
per-key unit sum of its own key and leaves every other key unchanged. -/
theorem valor_map_update {K : Type} [DecidableEq K] (k : K) (r : K × Int) :
    ∀ acc : List (K × Int), (acc.map Prod.fst).Nodup →
      acc.any (fun p => decide (p.1 = r.1)) = true →
      valorEnClave k (acc.map (fun p => if p.1 = r.1 then (p.1, p.2 + r.2) else p)) =
        valorEnClave k acc + (if r.1 = k then r.2 else 0) := by
  intro acc
  induction acc with
  | nil => intro _ hany; simp at hany
  | cons p t ih =>
    intro hnd hany
    rw [List.map_cons, List.nodup_cons] at hnd
    by_cases hp : p.1 = r.1
    · have ht : ∀ q ∈ t, ¬ q.1 = r.1 := by
        intro q hq hq1
        exact hnd.1 (by rw [hp, ← hq1]; exact List.mem_map_of_mem Prod.fst hq)
      rw [List.map_cons, if_pos hp, map_update_id t r ht, valorEnClave_cons, valorEnClave_cons]
      by_cases hk : p.1 = k
      · rw [if_pos hk, if_pos hk, if_pos (hp ▸ hk)]; ring
      · rw [if_neg hk, if_neg hk, if_neg (fun hrk => hk (hp ▸ hrk))]; ring
    · have hany' : t.any (fun q => decide (q.1 = r.1)) = true := by
        rcases List.any_eq_true.mp hany with ⟨q, hq, hqr⟩
        rcases List.mem_cons.mp hq with hq | hq
        · exact absurd (of_decide_eq_true (hq ▸ hqr)) hp
        · exact List.any_eq_true.mpr ⟨q, hq, hqr⟩
      rw [List.map_cons, if_neg hp, valorEnClave_cons, valorEnClave_cons, ih hnd.2 hany']
      ring

/-- Inserting a row adds its units to the per-key unit sum of its own key and
leaves every other key unchanged. -/
theorem agregar_fila_valorEnClave {K : Type} [DecidableEq K] (k : K) (acc : List (K × Int))
    (r : K × Int) (h : (acc.map Prod.fst).Nodup) :
    valorEnClave k (agregar_fila acc r) = valorEnClave k acc + (if r.1 = k then r.2 else 0) := by
  unfold agregar_fila
  split
  · next hany => exact valor_map_update k r acc h hany
  · simp only [valorEnClave, List.filter_append, sumSnd, List.map_append, List.sum_append]
    by_cases hk : r.1 = k <;> simp [hk]

/-- The group-by fold keeps accumulator keys distinct. -/
theorem foldl_agregar_nodup {K : Type} [DecidableEq K] :
    ∀ (rows acc : List (K × Int)), (acc.map Prod.fst).Nodup →
      ((rows.foldl agregar_fila acc).map Prod.fst).Nodup := by
  intro rows
  induction rows with
  | nil => intro acc h; exact h
  | cons r t ih => intro acc h; exact ih (agregar_fila acc r) (agregar_fila_nodup acc r h)

/-- The group-by fold adds the incoming unit sum to the accumulator's. -/
theorem foldl_agregar_sumSnd {K : Type} [DecidableEq K] :
    ∀ (rows acc : List (K × Int)), (acc.map Prod.fst).Nodup →
      sumSnd (rows.foldl agregar_fila acc) = sumSnd acc + sumSnd rows := by
  intro rows
  induction rows with
  | nil => intro acc _; simp [sumSnd]
  | cons r t ih =>
    intro acc h
    rw [List.foldl_cons, ih (agregar_fila acc r) (agregar_fila_nodup acc r h),
      agregar_fila_sumSnd acc r h]
    simp only [sumSnd, List.map_cons, List.sum_cons]
    ring

/-- The group-by fold adds the incoming per-key unit sum to the accumulator's,
for every key. -/
theorem foldl_agregar_valorEnClave {K : Type} [DecidableEq K] (k : K) :
    ∀ (rows acc : List (K × Int)), (acc.map Prod.fst).Nodup →
      valorEnClave k (rows.foldl agregar_fila acc) =
        valorEnClave k acc + valorEnClave k rows := by
  intro rows
  induction rows with
  | nil => intro acc _; simp [valorEnClave, sumSnd]
  | cons r t ih =>
    intro acc h
    rw [List.foldl_cons, ih (agregar_fila acc r) (agregar_fila_nodup acc r h),
      agregar_fila_valorEnClave k acc r h, valorEnClave_cons]
    by_cases hk : r.1 = k <;> simp [hk] <;> ring

/-- Grouped output has one row per key. -/
theorem groupby_sum_nodup {K : Type} [DecidableEq K] (rows : List (K × Int)) :
    ((groupby_sum rows).map Prod.fst).Nodup :=
  foldl_agregar_nodup rows [] (by simp)

/-- Grouping preserves the total unit sum. -/
theorem groupby_sum_sumSnd {K : Type} [DecidableEq K] (rows : List (K × Int)) :
    sumSnd (groupby_sum rows) = sumSnd rows := by
  have := foldl_agregar_sumSnd rows [] (by simp)
  simpa [groupby_sum, sumSnd] using this

/-- Grouping preserves the unit sum of every key. -/
theorem groupby_sum_valorEnClave {K : Type} [DecidableEq K] (k : K) (rows : List (K × Int)) :
    valorEnClave k (groupby_sum rows) = valorEnClave k rows := by
  have := foldl_agregar_valorEnClave k rows [] (by simp)
  simpa [groupby_sum, valorEnClave, sumSnd] using this

/-- The units of a converted detail row are the grouped entry's units. -/
theorem aFilaVenta_unidades (c : String) (n : Nat) (p : ClaveVenta × Int) :
    (aFilaVenta c n p).unidades = p.2 := by
  rcases p with ⟨⟨_, _, _, _, _, _⟩, _⟩; rfl

/-- The aggregation key of a detail row. -/
def claveFila (r : VentaRow) : ClaveVenta :=
  (r.ean, r.mes, r.anio, r.tienda, r.ciudad, r.descripcion)

/-- The key of a converted detail row is the grouped entry's key. -/
theorem aFilaVenta_clave (c : String) (n : Nat) (p : ClaveVenta × Int) :
    claveFila (aFilaVenta c n p) = p.1 := by
  rcases p with ⟨⟨_, _, _, _, _, _⟩, _⟩; rfl

/-- Converting grouped entries to detail rows and reading back key and units
is the identity. -/
theorem aFilaVenta_ida_vuelta (c : String) (n : Nat) (l : List (ClaveVenta × Int)) :
    (l.map (aFilaVenta c n)).map (fun r => (claveFila r, r.unidades)) = l := by
  rw [List.map_map]
  have : ∀ p ∈ l, ((fun r => (claveFila r, r.unidades)) ∘ aFilaVenta c n) p = id p := by
    intro p _
    rcases p with ⟨⟨_, _, _, _, _, _⟩, _⟩; rfl
  rw [List.map_congr_left this, List.map_id]

/-- The unit column of converted detail rows is the grouped value column. -/
theorem aFilaVenta_map_unidades (c : String) (n : Nat) (l : List (ClaveVenta × Int)) :
    (l.map (aFilaVenta c n)).map VentaRow.unidades = l.map Prod.snd := by
  rw [List.map_map]
  exact List.map_congr_left (fun p _ => aFilaVenta_unidades c n p)

/-- The key column of converted detail rows is the grouped key column. -/
theorem aFilaVenta_map_clave (c : String) (n : Nat) (l : List (ClaveVenta × Int)) :
    (l.map (aFilaVenta c n)).map claveFila = l.map Prod.fst := by
  rw [List.map_map]
  exact List.map_congr_left (fun p _ => aFilaVenta_clave c n p)

/-! ## Summary/detail cross-check facts per reshaper -/

/-- A successful PROMOTORA call's summary total is the unit sum of its detail
rows (the total is computed from the grouped table itself). -/
theorem promotora_resumen_detalle {datos : Datos} {s : ConsolidadoSellOut} {d : List VentaRow}
    (h : procesar_promotora datos = .ok s d) :
    s.unidades = (d.map VentaRow.unidades).sum := by
  unfold procesar_promotora at h
  split at h
  · cases h
  · split at h
    · cases h
    · dsimp only at h
      split at h
      · cases h
      · split at h
        · cases h
        · injection h with h1 h2
          subst h1; subst h2
          rw [aFilaVenta_map_unidades]
          rfl

/-- A successful MAKRO call's summary total (the unit sum of the melted long
table) is the unit sum of its grouped detail rows. -/
theorem makro_resumen_detalle {datos : Datos} {s : ConsolidadoSellOut} {d : List VentaRow}
    (h : procesar_makro datos = .ok s d) :
    s.unidades = (d.map VentaRow.unidades).sum := by
  unfold procesar_makro at h
  split at h
  · cases h
  · split at h
    · cases h
    · split at h
      · cases h
      · split at h
        · cases h
        · dsimp only at h
          split at h
          · cases h
          · injection h with h1 h2
            subst h1; subst h2
            rw [aFilaVenta_map_unidades]
            show _ = sumSnd (groupby_sum _)
            rw [groupby_sum_sumSnd]
            simp only [sumSnd, List.map_map]
            exact congrArg List.sum (List.map_congr_left (fun fv _ => rfl))

/-- Units column of the valued-key FARMATODO rows: when every raw row carries
all of its key cells, no row is dropped and the column is the raw
`UNIDADES_VENDIDAS` column. -/
theorem filas_validas_map_snd (mes : String) (anio : Int) :
    ∀ archivo : List FilaFarmatodo,
      (∀ f ∈ archivo,
        f.upc.isSome ∧ f.nombre_tienda.isSome ∧ f.ciudad.isSome ∧ f.descripcion_item.isSome) →
      (filas_validas_farmatodo mes anio archivo).map Prod.snd =
        archivo.map (fun f => f.unidades_vendidas) := by
  intro archivo
  induction archivo with
  | nil => intro _; rfl
  | cons f t ih =>
    intro hv
    obtain ⟨h1, h2, h3, h4⟩ := hv f (List.mem_cons_self f t)
    obtain ⟨u, hu⟩ := Option.isSome_iff_exists.mp h1
    obtain ⟨ti, hti⟩ := Option.isSome_iff_exists.mp h2
    obtain ⟨ci, hci⟩ := Option.isSome_iff_exists.mp h3
    obtain ⟨de, hde⟩ := Option.isSome_iff_exists.mp h4
    have hclave : clave_farmatodo mes anio f =
        some ((u, mes, anio, ti, ci, de), f.unidades_vendidas) := by
      unfold clave_farmatodo
      rw [hu, hti, hci, hde]
    have ht := ih (fun g hg => hv g (List.mem_cons_of_mem f hg))
    rw [show filas_validas_farmatodo mes anio (f :: t) =
        ((u, mes, anio, ti, ci, de), f.unidades_vendidas) ::
          filas_validas_farmatodo mes anio t from by
      unfold filas_validas_farmatodo
      rw [List.filterMap_cons, hclave]]
    rw [List.map_cons, List.map_cons, ht]

/-- A successful FARMATODO call's summary total (the unit sum of the raw
`UNIDADES_VENDIDAS` column) equals the unit sum of its grouped detail rows
whenever every raw row carries all of its key cells.  Rows with a missing key
cell are counted in the former and dropped from the latter, which is where the
cross-check invariant fails. -/
theorem farmatodo_resumen_detalle {datos : Datos} {archivo : List FilaFarmatodo}
    {s : ConsolidadoSellOut} {d : List VentaRow}
    (harch : datos.tabla_cliente_farmatodo = some archivo)
    (hvalid : ∀ f ∈ archivo,
      f.upc.isSome ∧ f.nombre_tienda.isSome ∧ f.ciudad.isSome ∧ f.descripcion_item.isSome)
    (h : procesar_farmatodo datos = .ok s d) :
    s.unidades = (d.map VentaRow.unidades).sum := by
  unfold procesar_farmatodo at h
  rw [harch] at h
  dsimp only at h
  split at h
  · cases h
  · split at h
    · cases h
    · injection h with h1 h2
      subst h1; subst h2
      rw [aFilaVenta_map_unidades]
      show _ = sumSnd (groupby_sum _)
      rw [groupby_sum_sumSnd]
      show _ = (List.map Prod.snd _).sum
      rw [filas_validas_map_snd _ _ archivo hvalid]

/-! ## Lemmas about the chronological selection -/

/-- Reflexivity of the chronological order. -/
theorem lexLe_refl (a : Int × Nat) : lexLe a a = true := by
  simp [lexLe]

/-- Totality of the chronological order. -/
theorem lexLe_total (a b : Int × Nat) : lexLe a b = true ∨ lexLe b a = true := by
  simp only [lexLe, Bool.or_eq_true, Bool.and_eq_true, decide_eq_true_eq]
  omega

/-- Transitivity of the chronological order. -/
theorem lexLe_trans {a b c : Int × Nat} (h1 : lexLe a b = true) (h2 : lexLe b c = true) :
    lexLe a c = true := by
  simp only [lexLe, Bool.or_eq_true, Bool.and_eq_true, decide_eq_true_eq] at *
  omega

/-- A fold whose step always returns one of its two arguments stays inside the
initial element and the list. -/
theorem foldl_mejor_mem {α : Type} (f : α → α → α) (hf : ∀ a b, f a b = a ∨ f a b = b) :
    ∀ (l : List α) (init : α), l.foldl f init = init ∨ l.foldl f init ∈ l := by
  intro l
  induction l with
  | nil => intro init; exact Or.inl rfl
  | cons c t ih =>
    intro init
    rw [List.foldl_cons]
    rcases ih (f init c) with h | h
    · rcases hf init c with hfc | hfc
      · exact Or.inl (h.trans hfc)
      · exact Or.inr (by rw [h, hfc]; exact List.mem_cons_self c t)
    · exact Or.inr (List.mem_cons_of_mem c h)

/-- The max-selecting fold dominates the initial element and every list
element in the chronological order. -/
theorem foldl_mejor_ge {α : Type} (key : α → Int × Nat) :
    ∀ (l : List α) (init x : α), (x = init ∨ x ∈ l) →
      lexLe (key x)
        (key (l.foldl (fun best cur => if lexLe (key best) (key cur) then cur else best) init)) =
        true := by
  intro l
  induction l with
  | nil =>
    intro init x hx
    rcases hx with rfl | hx
    · exact lexLe_refl _
    · cases hx
  | cons c t ih =>
    intro init x hx
    rw [List.foldl_cons]
    have hinit :
        lexLe (key init) (key (if lexLe (key init) (key c) then c else init)) = true := by
      split
      · next hcond => exact hcond
      · exact lexLe_refl _
    have hc : lexLe (key c) (key (if lexLe (key init) (key c) then c else init)) = true := by
      split
      · exact lexLe_refl _
      · next hcond =>
        rcases lexLe_total (key c) (key init) with h | h
        · exact h
        · exact absurd h (by simpa using hcond)
    have hrec := ih (if lexLe (key init) (key c) then c else init)
    rcases hx with rfl | hx
    · exact lexLe_trans hinit (hrec _ (Or.inl rfl))
    · rcases List.mem_cons.mp hx with rfl | hx
      · exact lexLe_trans hc (hrec _ (Or.inl rfl))
      · exact hrec x (Or.inr hx)

/-- Analysis of a successful history lookup: the returned successor period is
the period arithmetic applied to the returned latest period, and the returned
latest period's `(year, month_number)` key dominates that of every history row
of the same client, independently of row order. -/
theorem ultimo_ok_propiedades {hist : List SellOutRow} {nombre : String} {info : UltimoInfo}
    (h : obtener_ultimo_mes_cliente hist nombre = .ok info) :
    obtener_siguiente_mes info.ultimo_mes info.ultimo_anio = some info.siguiente_mes ∧
    ∀ r ∈ hist, r.cliente = nombre → ∀ n nmax : Nat,
      obtener_numero_mes r.mes = some n →
      obtener_numero_mes info.ultimo_mes = some nmax →
      lexLe (r.anio, n) (info.ultimo_anio, nmax) = true := by
  unfold obtener_ultimo_mes_cliente at h
  dsimp only at h
  split at h
  · cases h
  · split at h
    · split at h
      · cases h
      · next k ks heqclaves =>
        split at h
        · cases h
        · next sig heqsig =>
          injection h with h'
          subst h'
          constructor
          · exact heqsig
          · intro r hr hc n nmax hn hmax
            have hmem : (r, (r.anio, n)) ∈ k :: ks := by
              rw [← heqclaves]
              apply List.mem_filterMap.mpr
              refine ⟨r, List.mem_filter.mpr ⟨hr, by simp [hc]⟩, ?_⟩
              rw [hn]
              rfl
            have hge := foldl_mejor_ge (α := SellOutRow × (Int × Nat)) Prod.snd ks k
              (r, (r.anio, n)) (by rcases List.mem_cons.mp hmem with h | h
                                   · exact Or.inl h
                                   · exact Or.inr h)
            set u := ks.foldl
              (fun best cur => if lexLe best.2 cur.2 then cur else best) k with hu
            have hstep : ∀ a b : SellOutRow × (Int × Nat),
                (if lexLe a.2 b.2 then b else a) = a ∨ (if lexLe a.2 b.2 then b else a) = b := by
              intro a b
              by_cases hab : lexLe a.2 b.2 = true
              · exact Or.inr (by simp [hab])
              · exact Or.inl (by simp [hab])
            have humem : u ∈ k :: ks := by
              rw [hu]
              rcases foldl_mejor_mem _ hstep ks k with h | h
              · rw [h]; exact List.mem_cons_self k ks
              · exact List.mem_cons_of_mem k h
            have hukey : u.2 = (u.1.anio, nmax) := by
              rw [← heqclaves] at humem
              rcases List.mem_filterMap.mp humem with ⟨a, _, hfa⟩
              rcases hma : obtener_numero_mes a.mes with _ | m
              · rw [hma] at hfa; cases hfa
              · rw [hma] at hfa
                have hfa' : (a, (a.anio, m)) = u := by
                  simpa using hfa
                have hmm : m = nmax := by
                  have hnm : obtener_numero_mes u.1.mes = some nmax := hmax
                  rw [← hfa'] at hnm
                  dsimp only at hnm
                  rw [hma] at hnm
                  exact Option.some.inj hnm
                rw [← hfa']
                dsimp only
                rw [hmm]
            rw [hukey] at hge
            exact hge
    · cases h

/-! ## Lemmas about the month tables and the file validation -/

/-- Membership extraction for the dictionary lookup. -/
theorem buscarTabla_mem {α β : Type} [DecidableEq α] {k : α} {v : β} :
    ∀ {l : List (α × β)}, buscarTabla k l = some v → (k, v) ∈ l := by
  intro l
  induction l with
  | nil => intro h; cases h
  | cons p rest ih =>
    rcases p with ⟨a, b⟩
    intro h
    rw [buscarTabla] at h
    split at h
    · next heq =>
      injection h with h
      exact heq ▸ h ▸ List.mem_cons_self _ _
    · exact List.mem_cons_of_mem _ (ih h)

/-- Case analysis of a successful month-code lookup: it is one of the twelve
fixed pairs. -/
theorem numero_mes_casos {m : String} {n : Nat} (h : obtener_numero_mes m = some n) :
    (m = "ENE" ∧ n = 1) ∨ (m = "FEB" ∧ n = 2) ∨ (m = "MAR" ∧ n = 3) ∨ (m = "ABR" ∧ n = 4) ∨
    (m = "MAY" ∧ n = 5) ∨ (m = "JUN" ∧ n = 6) ∨ (m = "JUL" ∧ n = 7) ∨ (m = "AGO" ∧ n = 8) ∨
    (m = "SEP" ∧ n = 9) ∨ (m = "OCT" ∧ n = 10) ∨ (m = "NOV" ∧ n = 11) ∨ (m = "DIC" ∧ n = 12) := by
  rw [obtener_numero_mes, Option.bind_eq_some] at h
  obtain ⟨v, hv, hn⟩ := h
  have hmem := buscarTabla_mem hv
  have hall : ∀ p ∈ meses_mapping, (miToNat p.2).isSome ∧
      ((p.1 = "ENE" ∧ (miToNat p.2).getD 0 = 1) ∨ (p.1 = "FEB" ∧ (miToNat p.2).getD 0 = 2) ∨
       (p.1 = "MAR" ∧ (miToNat p.2).getD 0 = 3) ∨ (p.1 = "ABR" ∧ (miToNat p.2).getD 0 = 4) ∨
       (p.1 = "MAY" ∧ (miToNat p.2).getD 0 = 5) ∨ (p.1 = "JUN" ∧ (miToNat p.2).getD 0 = 6) ∨
       (p.1 = "JUL" ∧ (miToNat p.2).getD 0 = 7) ∨ (p.1 = "AGO" ∧ (miToNat p.2).getD 0 = 8) ∨
       (p.1 = "SEP" ∧ (miToNat p.2).getD 0 = 9) ∨ (p.1 = "OCT" ∧ (miToNat p.2).getD 0 = 10) ∨
       (p.1 = "NOV" ∧ (miToNat p.2).getD 0 = 11) ∨ (p.1 = "DIC" ∧ (miToNat p.2).getD 0 = 12)) := by
    decide
  have hns : n = (miToNat v).getD 0 := by rw [hn]; rfl
  rw [hns]
  exact (hall (m, v) hmem).2

/-- A successful reverse month lookup lands in the fixed month list. -/
theorem lookup_numero_a_mes_mem {k : Nat} {m : String} (h : buscarTabla k numero_a_mes = some m) :
    m ∈ meses_orden := by
  have hall : ∀ p ∈ numero_a_mes, p.2 ∈ meses_orden := by decide
  exact hall (k, m) (buscarTabla_mem h)

/-- The successor month returned by the period arithmetic is one of the twelve
valid codes. -/
theorem siguiente_mes_valido {mes : String} {anio : Int} {m : String} {y : Int}
    (h : obtener_siguiente_mes mes anio = some (m, y)) : m ∈ meses_orden := by
  unfold obtener_siguiente_mes at h
  split at h
  · cases h
  · dsimp only at h
    rcases hl : buscarTabla (if _ = 12 then 1 else _ + 1) numero_a_mes with _ | m'
    · rw [hl] at h; cases h
    · rw [hl] at h
      have : m' = m := by simpa using congrArg Prod.fst (Option.some.inj h)
      exact this ▸ lookup_numero_a_mes_mem hl

/-- The expected next month attached by a successful history lookup is one of
the twelve valid codes. -/
theorem ultimo_siguiente_valido {hist : List SellOutRow} {nombre : String} {info : UltimoInfo}
    (h : obtener_ultimo_mes_cliente hist nombre = .ok info) :
    info.siguiente_mes.1 ∈ meses_orden := by
  have hsig := (ultimo_ok_propiedades h).1
  rcases hs : info.siguiente_mes with ⟨m, y⟩
  rw [hs] at hsig
  exact siguiente_mes_valido hsig

/-- Membership in a month list yields an index for the embedded `list.index`. -/
theorem buscarIndice_isSome {m : String} : ∀ {l : List String}, m ∈ l →
    ∃ i, buscarIndice m l = some i := by
  intro l
  induction l with
  | nil => intro h; cases h
  | cons x rest ih =>
    intro h
    by_cases hx : x = m
    · exact ⟨0, by simp [buscarIndice, hx]⟩
    · rcases List.mem_cons.mp h with h | h
      · exact absurd h.symm hx
      · rcases ih h with ⟨i, hi⟩
        exact ⟨i + 1, by simp [buscarIndice, hx, hi]⟩

/-- Comparing two distinct valid months always reports "not processable" with
a message that spells out both the found and the expected month. -/
theorem verificar_mes_distinto (f : String) {m e : String} (hm : m ∈ meses_orden)
    (he : e ∈ meses_orden) (hne : m ≠ e) :
    (verificar_mes_correcto m e f).1 = false ∧
    ∃ a b c, (verificar_mes_correcto m e f).2 = a ++ m ++ b ++ e ++ c := by
  unfold verificar_mes_correcto
  rw [if_neg hne]
  rcases buscarIndice_isSome hm with ⟨pa, hpa⟩
  rcases buscarIndice_isSome he with ⟨pe, hpe⟩
  rw [hpa, hpe]
  dsimp only
  split
  · refine ⟨rfl, "⚠️ " ++ f ++ ": Mes ", " ya procesado (se esperaba ", ")", ?_⟩
    simp [String.append_assoc]
  · refine ⟨rfl, "⚠️ " ++ f ++ ": Mes ", " no corresponde (se esperaba ", ")", ?_⟩
    simp [String.append_assoc]

/-- Analysis of a successful file-name validation: the parsed month is a valid
upper-case code and the file name is nonempty. -/
theorem formato_ok_facts {nombre tipo : String} {mo r2 : Option String}
    (h : validar_formato_nombre_archivo (some nombre) tipo = (true, mo, r2)) :
    nombre ≠ "" ∧ ∃ mm, mo = some mm ∧ mm ∈ meses_orden := by
  unfold validar_formato_nombre_archivo at h
  dsimp only at h
  split at h
  · cases h
  · split at h
    · cases h
    · split at h
      · cases h
      · split at h
        · cases h
        · split at h
          · cases h
          · next hmes _ =>
            simp only [Prod.mk.injEq] at h
            obtain ⟨-, h2, -⟩ := h
            exact ⟨by assumption, _, h2.symm, by simpa using hmes⟩

/-! ## Concrete fixtures used by the claim theorems and witnesses -/

/-- History row MAKRO JUN/2025 with 100 units (spec example). -/
def junRow : SellOutRow :=
  { cliente := "MAKRO SUPERMAYORISTA SAS", mes := "JUN", anio := 2025, unidades := 100 }

/-- History row MAKRO MAY/2025 with 90 units (spec example). -/
def mayRow : SellOutRow :=
  { cliente := "MAKRO SUPERMAYORISTA SAS", mes := "MAY", anio := 2025, unidades := 90 }

/-- Expected lookup result for the two-row MAKRO example, in either row order. -/
def infoJun : UltimoInfo :=
  { cliente := "MAKRO SUPERMAYORISTA SAS", ultimo_mes := "JUN", ultimo_anio := 2025,
    unidades := 100, total_registros := 2, siguiente_mes := ("JUL", 2025) }

/-- A raw PROMOTORA row dated June 2025 at a hyphenated store label. -/
def filaPromotoraC1 (u : Int) : FilaPromotora :=
  { ean := "770", fecha := (2025, 6), nombDependencia := some "BOGOTA - UNICENTRO",
    descripcion := "CREMA", unidades := u }

/-- A raw MAKRO row with a single `Junio` wide column worth 4 units. -/
def filaMakroC1 : FilaMakro :=
  { tienda := some "1 - BODEGA - CALI"
    numero_articulo := some "9"
    descripcion := some "D"
    codigo_barras := some "77"
    cde := [("Junio", some 4)] }

/-- A raw FARMATODO row worth 5 units, all key cells present. -/
def filaFarmatodoC1 : FilaFarmatodo :=
  { upc := some "1", descripcion_item := some "D", nombre_tienda := some "T",
    ciudad := some "C", unidades_vendidas := 5 }

/-- A run input where all three clients have small valid inputs and each has
MAY/2025 as its last consolidated period. -/
def datosC1 : Datos :=
  { tabla_sell_out_consolidado :=
      [{ cliente := "PROMOTORA DE COMERCIO SOCIAL", mes := "MAY", anio := 2025, unidades := 7 },
       { cliente := "MAKRO SUPERMAYORISTA SAS", mes := "MAY", anio := 2025, unidades := 90 },
       { cliente := "FARMATODO COLOMBIA SA", mes := "MAY", anio := 2025, unidades := 5 }]
    tabla_sell_out_ciudades_consolidado := some []
    tabla_cliente_promotora :=
      some { tiene_col_unidades := true, filas := [filaPromotoraC1 10, filaPromotoraC1 15] }
    tabla_cliente_makro := some { columnas_cde := ["Junio"], filas := [filaMakroC1] }
    tabla_cliente_farmatodo := some [filaFarmatodoC1] }

/-- The canonical detail row produced by PROMOTORA on `datosC1`. -/
def detallePromotoraC1 : VentaRow :=
  { ean := "770", cliente := "PROMOTORA DE COMERCIO SOCIAL", mes := "june", anio := 2025,
    tienda := "BOGOTA", ciudad := "UNICENTRO", descripcion := "CREMA", unidades := 25, numMes := 6 }

/-- The canonical detail row produced by MAKRO on `datosC1`. -/
def detalleMakroC1 : VentaRow :=
  { ean := "77", cliente := "MAKRO SUPERMAYORISTA SAS", mes := "junio", anio := 2025,
    tienda := "BODEGA", ciudad := "CALI", descripcion := "D", unidades := 4, numMes := 6 }

/-- The canonical detail row produced by FARMATODO on `datosC1`. -/
def detalleFarmatodoC1 : VentaRow :=
  { ean := "1", cliente := "FARMATODO COLOMBIA SA", mes := "JUN", anio := 2025,
    tienda := "T", ciudad := "C", descripcion := "D", unidades := 5, numMes := 6 }

/-- The summary produced by PROMOTORA on `datosC1`. -/
def resumenPromotoraC1 : ConsolidadoSellOut :=
  { mes := "JUN", anio := 2025, cliente := "PROMOTORA DE COMERCIO SOCIAL", unidades := 25, numMes := 6 }

/-- The summary produced by MAKRO on `datosC1`. -/
def resumenMakroC1 : ConsolidadoSellOut :=
  { mes := "JUN", anio := 2025, cliente := "MAKRO SUPERMAYORISTA SAS", unidades := 4, numMes := 6 }

/-- The summary produced by FARMATODO on `datosC1`. -/
def resumenFarmatodoC1 : ConsolidadoSellOut :=
  { mes := "JUN", anio := 2025, cliente := "FARMATODO COLOMBIA SA", unidades := 5, numMes := 6 }

/-- A run input whose PROMOTORA sheet is present but has no `Unidades` column
(the `MissingUnitsColumn` situation), while FARMATODO has a healthy input. -/
def datosC2 : Datos :=
  { tabla_sell_out_consolidado :=
      [{ cliente := "PROMOTORA DE COMERCIO SOCIAL", mes := "MAY", anio := 2025, unidades := 7 },
       { cliente := "FARMATODO COLOMBIA SA", mes := "MAY", anio := 2025, unidades := 5 }]
    tabla_sell_out_ciudades_consolidado := some []
    tabla_cliente_promotora := some { tiene_col_unidades := false, filas := [] }
    tabla_cliente_makro := none
    tabla_cliente_farmatodo := some [filaFarmatodoC1] }

/-- History for the `datosC4` run: MAKRO's last period is MAY/2025. -/
def histC4 : List SellOutRow := [mayRow]

/-- A raw MAKRO row carrying only a `Mayo` wide column. -/
def filaMakroC4 : FilaMakro :=
  { tienda := some "1 - BODEGA - CALI"
    numero_articulo := some "9"
    descripcion := some "D"
    codigo_barras := some "77"
    cde := [("Mayo", some 4)] }

/-- A run input whose MAKRO wide sheet has no column for the expected month
JUN/2025 (only a `Mayo` column), with the other clients absent. -/
def datosC4 : Datos :=
  { tabla_sell_out_consolidado := histC4
    tabla_sell_out_ciudades_consolidado := some []
    tabla_cliente_promotora := none
    tabla_cliente_makro := some { columnas_cde := ["Mayo"], filas := [filaMakroC4] }
    tabla_cliente_farmatodo := none }

/-- A raw FARMATODO row whose CIUDAD key cell is missing (NaN), worth 5 units. -/
def filaFarmatodoNaN : FilaFarmatodo :=
  { upc := some "1", descripcion_item := some "D", nombre_tienda := some "T",
    ciudad := none, unidades_vendidas := 5 }

/-- A run input whose FARMATODO sheet holds one row with a missing CIUDAD key
cell, the other clients absent. -/
def datosC1nan : Datos :=
  { tabla_sell_out_consolidado :=
      [{ cliente := "FARMATODO COLOMBIA SA", mes := "MAY", anio := 2025, unidades := 5 }]
    tabla_sell_out_ciudades_consolidado := some []
    tabla_cliente_promotora := none
    tabla_cliente_makro := none
    tabla_cliente_farmatodo := some [filaFarmatodoNaN] }

/-! ## Claim theorems -/

/-- C1 (counterexample): a FARMATODO row whose CIUDAD key cell is missing
(NaN) is dropped by the group-by, yet its 5 units are counted in the summary
total, which is summed over the raw `UNIDADES_VENDIDAS` column: the emitted
summary says 5 units while the emitted detail rows sum to 0, refuting the
cross-check invariant as originally claimed. -/
theorem claim_C1_counterexample :
    procesar_farmatodo datosC1nan =
      .ok { mes := "JUN", anio := 2025, cliente := "FARMATODO COLOMBIA SA",
            unidades := 5, numMes := 6 } [] ∧
    ¬ (5 : Int) = (([] : List VentaRow).map VentaRow.unidades).sum := by
  decide

/-- C1 (amended): for every reshaping call that returns a `(summary, detail)`
pair, the `Unidades` total of the emitted summary equals the exact sum of the
`Unidades` values over all emitted detail rows of the same call — always for
`procesar_promotora` and `procesar_makro`, and for `procesar_farmatodo`
whenever every raw row has all four of its aggregation-key cells present (a
row with a missing key cell keeps its units in the summary but is dropped from
the detail by the group-by). -/
theorem claim_C1_total_resumen_igual_detalle (datos : Datos) (s : ConsolidadoSellOut)
    (d : List VentaRow) :
    (procesar_promotora datos = .ok s d → s.unidades = (d.map VentaRow.unidades).sum) ∧
    (procesar_makro datos = .ok s d → s.unidades = (d.map VentaRow.unidades).sum) ∧
    (∀ archivo : List FilaFarmatodo, datos.tabla_cliente_farmatodo = some archivo →
      (∀ f ∈ archivo,
        f.upc.isSome ∧ f.nombre_tienda.isSome ∧ f.ciudad.isSome ∧ f.descripcion_item.isSome) →
      procesar_farmatodo datos = .ok s d → s.unidades = (d.map VentaRow.unidades).sum) :=
  ⟨promotora_resumen_detalle, makro_resumen_detalle,
   fun _ harch hvalid h => farmatodo_resumen_detalle harch hvalid h⟩

/-- Witness for C1 at the concrete run input `datosC1` (all FARMATODO key
cells present): each client's summary total equals its detail-row unit sum. -/
theorem claim_C1_witness :
    resumenPromotoraC1.unidades = ([detallePromotoraC1].map VentaRow.unidades).sum ∧
    resumenMakroC1.unidades = ([detalleMakroC1].map VentaRow.unidades).sum ∧
    resumenFarmatodoC1.unidades = ([detalleFarmatodoC1].map VentaRow.unidades).sum :=
  ⟨(claim_C1_total_resumen_igual_detalle datosC1 resumenPromotoraC1 [detallePromotoraC1]).1
      (by decide),
   (claim_C1_total_resumen_igual_detalle datosC1 resumenMakroC1 [detalleMakroC1]).2.1
      (by decide),
   (claim_C1_total_resumen_igual_detalle datosC1 resumenFarmatodoC1 [detalleFarmatodoC1]).2.2
      [filaFarmatodoC1] rfl (by decide) (by decide)⟩

/-- C2 (divergence witness): on a run input whose PROMOTORA sheet lacks the
`Unidades` column, `procesar_promotora` returns the bare one-key error
dictionary instead of a pair, so the caller's tuple unpacking raises and the
whole consolidation aborts — the healthy FARMATODO contribution is lost and
no client is skipped. -/
theorem claim_C2_missing_units_aborts_run :
    procesar_promotora datosC2 =
      .errorDict "No se encontro la columna Unidades en el archivo de promotora" ∧
    procesar_farmatodo datosC2 = .ok resumenFarmatodoC1 [detalleFarmatodoC1] ∧
    actualizar_consolidado_y_guardar_excel datosC2 =
      .error "ValueError: not enough values to unpack (expected 2, got 1)" ∧
    actualizar_consolidado_sell_out_ciudades_y_guardar_excel datosC2 =
      .error "ValueError: not enough values to unpack (expected 2, got 1)" := by
  decide

/-- C4: on a run input whose MAKRO wide sheet has no column matching the
expected month's label, the melted long table is empty; instead of
contributing zero rows to the two historical tables, the source raises an
uncaught `ValueError` at the two-column store/city assignment on the empty
frame (`MAKRO_consolidado_long[['Tienda', 'Ciudad']] = ...`, pandas 1.3 and
later), aborting the whole consolidation: neither historical table is updated
and nothing is written. -/
theorem claim_C4_reshape_vacio_aborta :
    procesar_makro datosC4 = .excepcion "ValueError: Columns must be same length as key" ∧
    actualizar_consolidado_y_guardar_excel datosC4 =
      .error "ValueError: Columns must be same length as key" ∧
    actualizar_consolidado_sell_out_ciudades_y_guardar_excel datosC4 =
      .error "ValueError: Columns must be same length as key" := by
  decide

/-- C5: a successful `obtener_ultimo_mes_cliente` lookup selects a row whose
`(year, month_number)` key dominates every row of the requested client —
independently of the table's row order — and returns the period-arithmetic
successor of that latest period; on the two-row MAKRO example it reports
JUN/2025 as latest and (JUL, 2025) as next in either row order. -/
theorem claim_C5_ultimo_periodo :
    (∀ (hist : List SellOutRow) (nombre : String) (info : UltimoInfo) (r : SellOutRow)
        (n nmax : Nat),
      obtener_ultimo_mes_cliente hist nombre = .ok info →
      r ∈ hist → r.cliente = nombre →
      obtener_numero_mes r.mes = some n →
      obtener_numero_mes info.ultimo_mes = some nmax →
      lexLe (r.anio, n) (info.ultimo_anio, nmax) = true ∧
      obtener_siguiente_mes info.ultimo_mes info.ultimo_anio = some info.siguiente_mes) ∧
    obtener_ultimo_mes_cliente [junRow, mayRow] "MAKRO SUPERMAYORISTA SAS" = .ok infoJun ∧
    obtener_ultimo_mes_cliente [mayRow, junRow] "MAKRO SUPERMAYORISTA SAS" = .ok infoJun := by
  refine ⟨?_, by decide, by decide⟩
  intro hist nombre info r n nmax h hr hc hn hmax
  exact ⟨(ultimo_ok_propiedades h).2 r hr hc n nmax hn hmax, (ultimo_ok_propiedades h).1⟩

/-- Witness for C5 on the two-row MAKRO example: the MAY/2025 row's key is
dominated by the selected JUN/2025 key. -/
theorem claim_C5_witness : lexLe ((2025 : Int), 5) ((2025 : Int), 6) = true :=
  (claim_C5_ultimo_periodo.1 [junRow, mayRow] "MAKRO SUPERMAYORISTA SAS" infoJun mayRow 5 6
    (by decide) (by decide) rfl (by decide) (by decide)).1

/-- C6: for every valid month code and every year, `obtener_siguiente_mes`
returns the table successor of its ordinal — the first month with `year + 1`
after the twelfth month (DIC), and the next ordinal with the same year
otherwise — and is in particular total over the 12 × ℤ domain. -/
theorem claim_C6_siguiente_mes (y : Int) (m : String) (n : Nat)
    (h : obtener_numero_mes m = some n) :
    obtener_siguiente_mes m y =
      some ((buscarTabla (if n = 12 then 1 else n + 1) numero_a_mes).getD "",
        if n = 12 then y + 1 else y) ∧
    obtener_siguiente_mes "DIC" y = some ("ENE", y + 1) := by
  constructor
  · have hrango : 1 ≤ n ∧ n ≤ 12 := by
      rw [obtener_numero_mes, Option.bind_eq_some] at h
      obtain ⟨v, hv, hn⟩ := h
      have hall : ∀ p ∈ meses_mapping, 1 ≤ (miToNat p.2).getD 0 ∧ (miToNat p.2).getD 0 ≤ 12 := by
        decide
      have hns : n = (miToNat v).getD 0 := by rw [hn]; rfl
      exact hns ▸ hall (m, v) (buscarTabla_mem hv)
    unfold obtener_siguiente_mes
    rw [h]
    obtain ⟨hlo, hhi⟩ := hrango
    interval_cases n <;> rfl
  · rfl

/-- Witness for C6: June 2025 advances to July 2025 and December 2025 rolls
over to January 2026. -/
theorem claim_C6_witness :
    obtener_siguiente_mes "JUN" 2025 = some ("JUL", 2025) ∧
    obtener_siguiente_mes "DIC" 2025 = some ("ENE", 2026) := by
  constructor
  · rw [(claim_C6_siguiente_mes 2025 "JUN" 6 (by decide)).1]
    decide
  · rw [(claim_C6_siguiente_mes 2025 "DIC" 12 (by decide)).2]
    decide

/-- C7 (counterexample): the month-code lookup is case-sensitive — the
lower-case code "ene" raises a `KeyError` (modelled `none`) while "ENE" maps
to 1, so the three casings do not map alike. -/
theorem claim_C7_counterexample :
    obtener_numero_mes "ene" = none ∧ obtener_numero_mes "ENE" = some 1 := by
  decide

/-- C7 (amended): `obtener_numero_mes` maps each of the 12 upper-case 3-letter
month codes to its ordinal between 1 and 12, and fails (a `KeyError`, the
`InvalidMonthCode` situation) for every other string — including lower- and
mixed-case variants of the codes. -/
theorem claim_C7_numero_mes :
    (∀ i : Fin meses_orden.length, obtener_numero_mes (meses_orden.get i) = some (i.1 + 1)) ∧
    (∀ s : String, s ∉ meses_orden → obtener_numero_mes s = none) := by
  constructor
  · decide
  · intro s hs
    simp only [meses_orden, List.mem_cons, List.not_mem_nil, or_false, not_or] at hs
    obtain ⟨h1, h2, h3, h4, h5, h6, h7, h8, h9, h10, h11, h12⟩ := hs
    simp [obtener_numero_mes, meses_mapping, buscarTabla,
      Ne.symm h1, Ne.symm h2, Ne.symm h3, Ne.symm h4, Ne.symm h5, Ne.symm h6,
      Ne.symm h7, Ne.symm h8, Ne.symm h9, Ne.symm h10, Ne.symm h11, Ne.symm h12]

/-- Witness for C7 on the mixed-case code "Ene": it is rejected. -/
theorem claim_C7_witness : obtener_numero_mes "Ene" = none :=
  claim_C7_numero_mes.2 "Ene" (by decide)

/-- A run input whose PROMOTORA sheet holds two raw rows with the identical
aggregation key, worth 10 and 15 units. -/
def datosC8 : Datos :=
  { tabla_sell_out_consolidado :=
      [{ cliente := "PROMOTORA DE COMERCIO SOCIAL", mes := "MAY", anio := 2025, unidades := 7 }]
    tabla_sell_out_ciudades_consolidado := some []
    tabla_cliente_promotora :=
      some { tiene_col_unidades := true, filas := [filaPromotoraC1 10, filaPromotoraC1 15] }
    tabla_cliente_makro := none
    tabla_cliente_farmatodo := none }

/-- C8: reshaping aggregates by the canonical key — on the concrete input with
two raw rows sharing one key and units 10 and 15, PROMOTORA emits exactly one
detail row with 25 units; in general both the PROMOTORA and the FARMATODO
reshapers emit pairwise-distinct keys (one output row per key) and, for every
key, the emitted units equal the summed units of all preprocessed raw rows
carrying that key (for FARMATODO the preprocessed rows are the valued-key rows
`filas_validas_farmatodo`, matching pandas `groupby` which drops rows whose
key contains a missing cell). -/
theorem claim_C8_agregacion :
    (procesar_promotora datosC8 = .ok resumenPromotoraC1 [detallePromotoraC1]) ∧
    (∀ (datos : Datos) (tabla : TablaPromotora) (s : ConsolidadoSellOut) (d : List VentaRow),
      datos.tabla_cliente_promotora = some tabla →
      procesar_promotora datos = .ok s d →
      (d.map claveFila).Nodup ∧
      ∀ k : ClaveVenta, valorEnClave k (d.map (fun r => (claveFila r, r.unidades))) =
        valorEnClave k ((tabla.filas.filter filtroDependencia).map
          (fun f => (clavePromotora f, f.unidades)))) ∧
    (∀ (datos : Datos) (archivo : List FilaFarmatodo) (s : ConsolidadoSellOut) (d : List VentaRow),
      datos.tabla_cliente_farmatodo = some archivo →
      procesar_farmatodo datos = .ok s d →
      (d.map claveFila).Nodup ∧
      ∀ k : ClaveVenta, valorEnClave k (d.map (fun r => (claveFila r, r.unidades))) =
        valorEnClave k (filas_validas_farmatodo s.mes s.anio archivo)) := by
  refine ⟨by decide, ?_, ?_⟩
  · intro datos tabla s d h1 h2
    unfold procesar_promotora at h2
    rw [h1] at h2
    dsimp only at h2
    split at h2
    · cases h2
    · split at h2
      · cases h2
      · split at h2
        · cases h2
        · injection h2 with hs hd
          subst hd
          constructor
          · rw [aFilaVenta_map_clave]
            exact groupby_sum_nodup _
          · intro k
            rw [aFilaVenta_ida_vuelta]
            exact groupby_sum_valorEnClave k _
  · intro datos archivo s d h1 h2
    unfold procesar_farmatodo at h2
    rw [h1] at h2
    dsimp only at h2
    split at h2
    · cases h2
    · split at h2
      · cases h2
      · injection h2 with hs hd
        subst hs
        subst hd
        constructor
        · rw [aFilaVenta_map_clave]
          exact groupby_sum_nodup _
        · intro k
          rw [aFilaVenta_ida_vuelta]
          exact groupby_sum_valorEnClave k _

/-- Witness for C8 at the concrete run input `datosC8`: the emitted detail
table has pairwise-distinct keys. -/
theorem claim_C8_witness : (([detallePromotoraC1] : List VentaRow).map claveFila).Nodup :=
  (claim_C8_agregacion.2.1 datosC8
    { tiene_col_unidades := true, filas := [filaPromotoraC1 10, filaPromotoraC1 15] }
    resumenPromotoraC1 [detallePromotoraC1] rfl (by decide)).1

/-- Modelled from the claim wording for the generic store/city resolver: the
override table first; failing that, a hyphen split must yield exactly two
non-empty parts to become `(store, city)`; failing that, the full trimmed
label with the unknown-city sentinel. -/
def separar_tienda_ciudad_claim (nombre0 : String) : String × String :=
  let nombre := miTrim nombre0
  if nombre = "CARULLA PRADERA DE POTOSI" then ("CARULLA PRADERA DE POTOSI", "POTOSI")
  else if nombre = "CARULLA MANIZALES" then ("CARULLA MANIZALES", "MANIZALES")
  else if nombre = "CARULLA PLAZA CLARO" then ("CARULLA PLAZA CLARO", "BOGOTA")
  else
    match (pySplit "-" nombre).map miTrim with
    | [tienda, ciudad] =>
      if tienda ≠ "" ∧ ciudad ≠ "" then (tienda, ciudad) else (nombre, "CIUDAD DESCONOCIDA")
    | _ => (nombre, "CIUDAD DESCONOCIDA")

/-- C9 (counterexample): on the label "A-B-C" the hyphen split yields three
parts, so the claim prescribes the fallback pair, but the code takes the first
two split parts. -/
theorem claim_C9_counterexample :
    separar_tienda_ciudad "A-B-C" = ("A", "B") ∧
    separar_tienda_ciudad_claim "A-B-C" = ("A-B-C", "CIUDAD DESCONOCIDA") ∧
    separar_tienda_ciudad "A-B-C" ≠ separar_tienda_ciudad_claim "A-B-C" := by
  decide

/-- C9 (amended): `separar_tienda_ciudad` always returns a pair; a label whose
trimmed form matches the override table returns its override — in particular
"CARULLA PRADERA DE POTOSI" maps to ("CARULLA PRADERA DE POTOSI", "POTOSI");
otherwise, when the trimmed label contains a hyphen, the first two trimmed
parts of the hyphen split become `(store, city)` — regardless of whether they
are empty or followed by further parts — in particular "BOGOTA - UNICENTRO"
maps to ("BOGOTA", "UNICENTRO"); otherwise the result is the trimmed label
with the fixed sentinel for an unknown city. -/
theorem claim_C9_separar_tienda_ciudad :
    separar_tienda_ciudad "CARULLA PRADERA DE POTOSI" = ("CARULLA PRADERA DE POTOSI", "POTOSI") ∧
    separar_tienda_ciudad "BOGOTA - UNICENTRO" = ("BOGOTA", "UNICENTRO") ∧
    (∀ (s tienda ciudad : String) (resto : List String),
      miTrim s ≠ "CARULLA PRADERA DE POTOSI" → miTrim s ≠ "CARULLA MANIZALES" →
      miTrim s ≠ "CARULLA PLAZA CLARO" →
      contieneChar '-' (miTrim s) = true →
      (pySplit "-" (miTrim s)).map miTrim = tienda :: ciudad :: resto →
      separar_tienda_ciudad s = (tienda, ciudad)) ∧
    (∀ s : String,
      miTrim s ≠ "CARULLA PRADERA DE POTOSI" → miTrim s ≠ "CARULLA MANIZALES" →
      miTrim s ≠ "CARULLA PLAZA CLARO" →
      contieneChar '-' (miTrim s) = false →
      separar_tienda_ciudad s = (miTrim s, "CIUDAD DESCONOCIDA")) := by
  refine ⟨by decide, by decide, ?_, ?_⟩
  · intro s tienda ciudad resto h1 h2 h3 hcon hsplit
    unfold separar_tienda_ciudad
    rw [if_neg h1, if_neg h2, if_neg h3, if_pos hcon, hsplit]
  · intro s h1 h2 h3 hcon
    unfold separar_tienda_ciudad
    rw [if_neg h1, if_neg h2, if_neg h3, if_neg (by simp [hcon])]

/-- Witness for C9 on the three-part label "X-Y-Z": the code keeps the first
two split parts. -/
theorem claim_C9_witness : separar_tienda_ciudad "X-Y-Z" = ("X", "Y") :=
  claim_C9_separar_tienda_ciudad.2.2.1 "X-Y-Z" "X" "Y" ["Z"]
    (by decide) (by decide) (by decide) (by decide) (by decide)

/-- C3: whenever the filename passes format validation with a month code that
differs from the expected next month derived from the client's history, the
validation marks the client not processable and its message spells out both
the found month and the expected month. -/
theorem claim_C3_mes_distinto :
    ∀ (nombre tipo empresa mes_archivo : String) (r2 : Option String)
      (hist : List SellOutRow) (info : UltimoInfo),
    validar_formato_nombre_archivo (some nombre) tipo = (true, some mes_archivo, r2) →
    obtener_ultimo_mes_cliente hist empresa = .ok info →
    mes_archivo ≠ info.siguiente_mes.1 →
    (validar_cliente_individual (some nombre) true hist tipo empresa).procesable = false ∧
    ∃ a b c, (validar_cliente_individual (some nombre) true hist tipo empresa).mensaje =
      a ++ mes_archivo ++ b ++ info.siguiente_mes.1 ++ c := by
  intro nombre tipo empresa mes_archivo r2 hist info hf hu hne
  obtain ⟨hnz, mm, hmm, hmem⟩ := formato_ok_facts hf
  obtain rfl : mm = mes_archivo := (Option.some.inj hmm).symm
  have hemem := ultimo_siguiente_valido hu
  have hver := verificar_mes_distinto nombre hmem hemem hne
  unfold validar_cliente_individual
  rw [if_neg (by simp [hnz])]
  rw [if_neg (by simp)]
  simp only [Option.getD_some]
  rw [hf]
  dsimp only
  rw [hu]
  dsimp only
  simp only [Option.getD_some]
  rcases hv : verificar_mes_correcto mm info.siguiente_mes.1 nombre with ⟨b1, msg⟩
  rw [hv] at hver
  obtain ⟨hb1, a, b, c, hmsg⟩ := hver
  dsimp only at hb1 hmsg
  subst hb1
  subst hmsg
  refine ⟨rfl, tipo ++ ": " ++ a, b, c, ?_⟩
  dsimp only
  simp [String.append_assoc]

/-- C10 (implicit): the period validation compares only 3-letter month codes —
acceptance by `verificar_mes_correcto` is exactly equality of the two month
codes, the whole per-client validation result is unchanged when the history is
replaced by one whose expected next month agrees while its years differ, and a
file whose encoded month equals the expected month is marked processable no
matter which year its data belongs to. -/
theorem claim_C10_anio_ignorado :
    (∀ m e f : String, (verificar_mes_correcto m e f).1 = true ↔ m = e) ∧
    (∀ (na : Option String) (ex : Bool) (tipo empresa : String)
        (hist hist' : List SellOutRow) (info info' : UltimoInfo),
      obtener_ultimo_mes_cliente hist empresa = .ok info →
      obtener_ultimo_mes_cliente hist' empresa = .ok info' →
      info.siguiente_mes.1 = info'.siguiente_mes.1 →
      validar_cliente_individual na ex hist tipo empresa =
        validar_cliente_individual na ex hist' tipo empresa) ∧
    (∀ (nombre tipo empresa mes_archivo : String) (r2 : Option String)
        (hist : List SellOutRow) (info : UltimoInfo),
      validar_formato_nombre_archivo (some nombre) tipo = (true, some mes_archivo, r2) →
      obtener_ultimo_mes_cliente hist empresa = .ok info →
      info.siguiente_mes.1 = mes_archivo →
      (validar_cliente_individual (some nombre) true hist tipo empresa).procesable = true) := by
  refine ⟨?_, ?_, ?_⟩
  · intro m e f
    by_cases hme : m = e
    · simp [verificar_mes_correcto, hme]
    · constructor
      · intro htrue
        exfalso
        unfold verificar_mes_correcto at htrue
        rw [if_neg hme] at htrue
        repeat' split at htrue
        all_goals simp at htrue
      · intro h
        exact absurd h hme
  · intro na ex tipo empresa hist hist' info info' h h' hmes
    unfold validar_cliente_individual
    by_cases h0 : na = none ∨ na = some ""
    · rw [if_pos h0, if_pos h0]
    · rw [if_neg h0, if_neg h0]
      by_cases hex : (!ex) = true
      · rw [if_pos hex, if_pos hex]
      · rw [if_neg hex, if_neg hex]
        rcases hfv : validar_formato_nombre_archivo (some (na.getD "")) tipo with ⟨ok, mo, er⟩
        cases ok
        · rfl
        · dsimp only
          rw [h, h']
          dsimp only
          rw [hmes]
  · intro nombre tipo empresa mes_archivo r2 hist info hf hu hmes
    obtain ⟨hnz, mm, hmm, hmem⟩ := formato_ok_facts hf
    obtain rfl : mm = mes_archivo := (Option.some.inj hmm).symm
    unfold validar_cliente_individual
    rw [if_neg (by simp [hnz])]
    rw [if_neg (by simp)]
    simp only [Option.getD_some]
    rw [hf]
    dsimp only
    rw [hu]
    dsimp only
    rw [hmes]
    simp only [Option.getD_some]
    rw [show verificar_mes_correcto mm mm nombre =
      (true, "✅ " ++ nombre ++ ": Mes correcto (" ++ mm ++ ")") from by
        unfold verificar_mes_correcto
        rw [if_pos rfl]]

/-- History used by the C3 witness: MAKRO's last period is JUN/2025, so the
expected file month is JUL. -/
def histC3 : List SellOutRow :=
  [{ cliente := "MAKRO SUPERMAYORISTA SAS", mes := "JUN", anio := 2025, unidades := 100 }]

/-- Expected lookup result on `histC3`. -/
def infoC3 : UltimoInfo :=
  { cliente := "MAKRO SUPERMAYORISTA SAS", ultimo_mes := "JUN", ultimo_anio := 2025,
    unidades := 100, total_registros := 1, siguiente_mes := ("JUL", 2025) }

/-- Witness for C3: the file `MAY_MAKRO.xlsx` against a history expecting JUL
is marked not processable. -/
theorem claim_C3_witness :
    (validar_cliente_individual (some "MAY_MAKRO.xlsx") true histC3 "MAKRO"
      "MAKRO SUPERMAYORISTA SAS").procesable = false :=
  (claim_C3_mes_distinto "MAY_MAKRO.xlsx" "MAKRO" "MAKRO SUPERMAYORISTA SAS" "MAY" none
    histC3 infoC3 (by decide) (by decide) (by decide)).1

/-- History used by the C10 witness: same as `histC3` but one year later. -/
def histC10 : List SellOutRow :=
  [{ cliente := "MAKRO SUPERMAYORISTA SAS", mes := "JUN", anio := 2026, unidades := 100 }]

/-- Expected lookup result on `histC10`. -/
def infoC10 : UltimoInfo :=
  { cliente := "MAKRO SUPERMAYORISTA SAS", ultimo_mes := "JUN", ultimo_anio := 2026,
    unidades := 100, total_registros := 1, siguiente_mes := ("JUL", 2026) }

/-- Witness for C10: the same file `JUL_MAKRO.xlsx` is validated identically
against the 2025 history and the 2026 history (only the expected month is
compared), and it is accepted as processable against the 2026 history even if
its data belongs to 2025. -/
theorem claim_C10_witness :
    validar_cliente_individual (some "JUL_MAKRO.xlsx") true histC3 "MAKRO"
      "MAKRO SUPERMAYORISTA SAS" =
    validar_cliente_individual (some "JUL_MAKRO.xlsx") true histC10 "MAKRO"
      "MAKRO SUPERMAYORISTA SAS" ∧
    (validar_cliente_individual (some "JUL_MAKRO.xlsx") true histC10 "MAKRO"
      "MAKRO SUPERMAYORISTA SAS").procesable = true :=
  ⟨claim_C10_anio_ignorado.2.1 (some "JUL_MAKRO.xlsx") true "MAKRO" "MAKRO SUPERMAYORISTA SAS"
      histC3 histC10 infoC3 infoC10 (by decide) (by decide) rfl,
   claim_C10_anio_ignorado.2.2 "JUL_MAKRO.xlsx" "MAKRO" "MAKRO SUPERMAYORISTA SAS" "JUL" none
      histC10 infoC10 (by decide) (by decide) rfl⟩
